import Mathlib

/-
  Verification development for the dimension-bridge certificate manager.

  The repository has two near-duplicate variants of the certificate manager:
  a library variant (src/lib.rs) and a binary variant (src/main.rs).  Both are
  embedded below.  External effects (subprocess invocations, HTTP delivery,
  filesystem metadata) are modelled as oracle inputs; the control flow, the
  error propagation (the Rust question-mark operator becomes bind in the
  Except monad) and the pure string computations are translated directly
  from the source.
-/

namespace DimensionBridge

/- ===================================================================
   IP address parsing, a faithful port of the Rust standard library
   parser (core::net::parser) used by str::parse::<IpAddr>(), which is
   what CertManager::is_ip_address in src/lib.rs calls.
   =================================================================== -/

/-- Numeric value of a list of decimal digit characters. -/
def natOfDigits (l : List Char) : Nat :=
  l.foldl (fun a c => a * 10 + (c.toNat - '0'.toNat)) 0

/-- A valid IPv4 octet: 1 to 3 decimal digits, no leading zero unless the
octet is exactly "0", and value at most 255 (Rust read_number with radix 10,
max_digits 3, allow_zero_prefix false, into u8). -/
def validOctet (l : List Char) : Bool :=
  !l.isEmpty && decide (l.length ≤ 3) && l.all Char.isDigit &&
    (decide (l.length = 1) || !(l.head? == some '0')) &&
    decide (natOfDigits l ≤ 255)

/-- Greedily read one IPv4 octet from the front; return the rest on success. -/
def readOctet (l : List Char) : Option (List Char) :=
  let ds := l.takeWhile Char.isDigit
  if validOctet ds then some (l.drop ds.length) else none

/-- Consume one expected character. -/
def expectChar (c : Char) : List Char → Option (List Char)
  | x :: rest => if x = c then some rest else none
  | [] => none

/-- Read a full IPv4 address (four octets separated by dots) from the front. -/
def readIpv4 (l : List Char) : Option (List Char) := do
  let r1 ← readOctet l
  let r2 ← expectChar '.' r1
  let r3 ← readOctet r2
  let r4 ← expectChar '.' r3
  let r5 ← readOctet r4
  let r6 ← expectChar '.' r5
  readOctet r6

/-- The whole string is a valid IPv4 address. -/
def isIpv4 (s : String) : Bool :=
  match readIpv4 s.data with
  | some [] => true
  | _ => false

/-- ASCII hexadecimal digit. -/
def isHexDig (c : Char) : Bool :=
  c.isDigit || ('a' ≤ c && c ≤ 'f') || ('A' ≤ c && c ≤ 'F')

/-- Greedily read one IPv6 group: 1 to 4 hex digits (Rust read_number with
radix 16, max_digits 4, leading zeros allowed, into u16). -/
def readHexGroup (l : List Char) : Option (List Char) :=
  let ds := l.takeWhile isHexDig
  if !ds.isEmpty && decide (ds.length ≤ 4) then some (l.drop ds.length) else none

/-- Rust read_groups: read up to fuel colon-separated groups; a trailing
embedded IPv4 address fills two group slots and is only attempted while at
least two slots remain.  Returns (groups read, embedded IPv4 used, rest).
On a failed group the input position is the one before its separator. -/
def readGroupsAux : Nat → Bool → List Char → Nat × Bool × List Char
  | 0, _, l => (0, false, l)
  | fuel + 1, needSep, l =>
    match (if needSep then expectChar ':' l else some l) with
    | none => (0, false, l)
    | some l1 =>
      match (if 1 ≤ fuel then readIpv4 l1 else none) with
      | some rest => (2, true, rest)
      | none =>
        match readHexGroup l1 with
        | some rest =>
          let (n, f, r) := readGroupsAux fuel true rest
          (n + 1, f, r)
        | none => (0, false, l)

/-- Rust read_ipv6_addr: read head groups; 8 groups is a complete address;
otherwise a double colon must follow (an embedded IPv4 may not sit before
it), then tail groups limited so that the double colon stands for at least
one zero group. -/
def readIpv6 (l : List Char) : Option (List Char) :=
  let (h, usedV4, rest) := readGroupsAux 8 false l
  if h = 8 then some rest
  else if usedV4 then none
  else
    match rest with
    | ':' :: ':' :: rest2 =>
      let (_, _, rest3) := readGroupsAux (8 - (h + 1)) false rest2
      some rest3
    | _ => none

/-- The whole string is a valid IPv6 address. -/
def isIpv6 (s : String) : Bool :=
  match readIpv6 s.data with
  | some [] => true
  | _ => false

/-- CertManager::is_ip_address (src/lib.rs): addr.parse::<IpAddr>().is_ok().
Rust tries the IPv4 form first, then the IPv6 form. -/
def is_ip_address (addr : String) : Bool :=
  isIpv4 addr || isIpv6 addr

/- ===================================================================
   SAN construction, from the three generation backends.
   =================================================================== -/

/-- SAN entry list built by CertManager::try_openssl in src/lib.rs: the
fixed entries DNS:localhost and IP:127.0.0.1, then the configured server
identity classified by is_ip_address. -/
def libSanEntries (serverIp : String) : List String :=
  ["DNS:localhost", "IP:127.0.0.1"] ++
    [if is_ip_address serverIp then "IP:" ++ serverIp else "DNS:" ++ serverIp]

/-- The joined SAN string passed in the OpenSSL config (src/lib.rs). -/
def libSan (serverIp : String) : String :=
  String.intercalate "," (libSanEntries serverIp)

/-- SAN string built by CertManager::try_openssl in src/main.rs:
format("IP:,DNS:localhost,IP:127.0.0.1") with the identity spliced after
the first IP: prefix, with no classification of the identity. -/
def mainSan (serverIp : String) : String :=
  "IP:" ++ serverIp ++ ",DNS:localhost,IP:127.0.0.1"

/-- SAN values passed to the Step CLI backend (identical in both variants):
the raw identity plus localhost and 127.0.0.1, each as a plain --san value
with no IP or DNS prefix. -/
def stepSanArgs (serverIp : String) : List String :=
  [serverIp, "localhost", "127.0.0.1"]

/- ===================================================================
   Expiry check: CertManager::check_cert_expiry, identical in src/lib.rs
   and src/main.rs.  The external observations are oracle inputs:
   certFileExists models fs::metadata(cert_file).is_ok(), opensslOk the
   exit status of the openssl x509 -enddate subprocess, and daysLeft the
   combined outcome of parsing the notAfter field and computing
   (expiry - now).num_days(); none means the date failed to parse.
   Ok true means the certificate is healthy, Ok false means renewal is
   needed.
   =================================================================== -/

def check_cert_expiry (certFileExists : Bool) (opensslOk : Bool)
    (daysLeft : Option Int) (daysBeforeRenewal : Int) : Except String Bool :=
  if !certFileExists then
    Except.ok false
  else if !opensslOk then
    Except.ok false
  else
    match daysLeft with
    | none => Except.error "Failed to parse expiry date"
    | some d =>
      if d ≤ daysBeforeRenewal then Except.ok false else Except.ok true

/- ===================================================================
   Notification delivery.
   =================================================================== -/

/-- Outcome of one HTTP POST to the webhook. -/
inductive HttpResult where
  | response (is2xx : Bool)
  | netErr (msg : String)
deriving DecidableEq, Repr

/-- CertManager::send_slack_notification (src/lib.rs): no webhook means a
silent skip; the send itself carries a question mark, so a network error
propagates; a non-2xx response is only logged. -/
def send_slack_notification (webhook : Option String) (r : HttpResult) :
    Except String Unit :=
  match webhook with
  | none => Except.ok ()
  | some _ =>
    match r with
    | HttpResult.netErr e => Except.error e
    | HttpResult.response _ => Except.ok ()

/-- CertManager::send_notification (src/main.rs), embedded in the same
error monad: the Rust function returns unit and matches on the send result,
logging both the network-error and the non-2xx cases, so every branch is ok. -/
def mainSendNotification (webhook : Option String) (r : HttpResult) :
    Except String Unit :=
  match webhook with
  | none => Except.ok ()
  | some _ =>
    match r with
    | HttpResult.netErr _ => Except.ok ()
    | HttpResult.response _ => Except.ok ()

/- ===================================================================
   Reload trigger.
   =================================================================== -/

/-- Whether pat occurs at the start of l. -/
def charsStartsWith : List Char → List Char → Bool
  | [], _ => true
  | _ :: _, [] => false
  | p :: ps, c :: cs => p == c && charsStartsWith ps cs

/-- Whether pat occurs anywhere in l (Rust str::contains with a str pattern). -/
def charsHasSubstr (pat : List Char) : List Char → Bool
  | [] => pat.isEmpty
  | c :: cs => charsStartsWith pat (c :: cs) || charsHasSubstr pat cs

/-- Rust str::contains for a string pattern. -/
def hasSubstr (s pat : String) : Bool :=
  charsHasSubstr pat.data s.data

/-- Rust str::contains for a single character pattern. -/
def strContainsChar (s : String) (c : Char) : Bool :=
  s.data.contains c

/-- Split a character list at every character satisfying p, keeping empty
segments. -/
def splitOnPredList (p : Char → Bool) : List Char → List (List Char)
  | [] => [[]]
  | c :: rest =>
    if p c then [] :: splitOnPredList p rest
    else
      match splitOnPredList p rest with
      | [] => [[c]]
      | seg :: segs => (c :: seg) :: segs

/-- Rust str::split_whitespace: split on whitespace, dropping empty pieces. -/
def splitWhitespace (s : String) : List String :=
  ((splitOnPredList Char.isWhitespace s.data).filter
      (fun l => !l.isEmpty)).map (fun l => String.mk l)

/-- How the reload trigger acts. -/
inductive ReloadAction where
  | shell (cmd : String)
  | direct (prog : String) (args : List String)
  | sentinel (path : String)
  | skipped
deriving DecidableEq, Repr

/-- CertManager::signal_restart (src/main.rs): with a configured command,
use sh -c when the command contains the chaining metacharacters double
ampersand or semicolon, else split on whitespace and invoke directly (an
empty command is an error); with no command, write the sentinel file
.restart_needed into the certificate directory. -/
def main_signal_restart (reloadCommand : Option String) (certDir : String) :
    Except String ReloadAction :=
  match reloadCommand with
  | some c =>
    if hasSubstr c "&&" || strContainsChar c ';' then
      Except.ok (ReloadAction.shell c)
    else
      match splitWhitespace c with
      | [] => Except.error "Empty reload command"
      | prog :: args => Except.ok (ReloadAction.direct prog args)
  | none => Except.ok (ReloadAction.sentinel (certDir ++ "/.restart_needed"))

/-- CertManager::execute_reload_command (src/lib.rs): with no command
configured it does nothing; with a command it always runs sh -c. -/
def lib_execute_reload_command (reloadCommand : Option String) :
    Except String ReloadAction :=
  match reloadCommand with
  | none => Except.ok ReloadAction.skipped
  | some c => Except.ok (ReloadAction.shell c)

/- ===================================================================
   Configuration loading: Config::from_env, identical in both variants.
   =================================================================== -/

/-- Split a character list on a separator, keeping empty segments
(Rust str::split semantics). -/
def splitOnCharList (sep : Char) : List Char → List (List Char)
  | [] => [[]]
  | c :: rest =>
    if c = sep then [] :: splitOnCharList sep rest
    else
      match splitOnCharList sep rest with
      | [] => [[c]]
      | seg :: segs => (c :: seg) :: segs

/-- Rust domains.split(sep) collected as a list of strings. -/
def splitOnChar (sep : Char) (s : String) : List String :=
  (splitOnCharList sep s.data).map (fun l => String.mk l)

/-- The server identity selection in Config::from_env: SERVER_IP when set,
else the first comma-separated entry of CERT_DOMAINS with "localhost" as
the unwrap_or fallback of the iterator, else a fatal error. -/
def configServerIp (serverIpVar : Option String) (certDomainsVar : Option String) :
    Except String String :=
  match serverIpVar with
  | some s => Except.ok s
  | none =>
    match certDomainsVar with
    | some domains =>
      Except.ok (((splitOnChar ',' domains).headD "localhost"))
    | none =>
      Except.error "SERVER_IP or CERT_DOMAINS environment variable is required"

/-- Stated from the claim wording: the substring of CERT_DOMAINS before its
first comma, taken verbatim. -/
def firstDomainSegment (d : String) : String :=
  String.mk (d.data.takeWhile (fun c => c ≠ ','))

/- ===================================================================
   Renewal cycle of the src/main.rs variant, threaded through an explicit
   model of the certificate directory.  The tracked files are the live
   pair service.crt / service.key, the candidate pair service-new.crt /
   service-new.key, and the aside copies service.crt.old / service.key.old
   made by replace_cert; each is none when absent, otherwise its content.
   =================================================================== -/

structure FS where
  liveCert : Option String
  liveKey : Option String
  tempCert : Option String
  tempKey : Option String
  oldCert : Option String
  oldKey : Option String
deriving DecidableEq, Repr

/-- Oracle inputs for one src/main.rs cycle: outcomes of the external
subprocesses and filesystem calls that the orchestrator reacts to. -/
structure MainEnv where
  /-- Exit status of openssl x509 -enddate on the live certificate. -/
  opensslOk : Bool
  /-- Parsed days remaining until notAfter; none when the date fails to parse. -/
  daysLeft : Option Int
  /-- config.days_before_renewal. -/
  threshold : Int
  /-- Outcome of backup_cert (directory creation and the two copies). -/
  backup : Except String Unit
  /-- Outcome of the generation backend chain: ok true when some backend
  succeeded, ok false when every backend reported failure, error on a
  spawn failure carried by the question mark. -/
  genResult : Except String Bool
  /-- Candidate certificate content written on generation success. -/
  newCertContent : String
  /-- Candidate key content written on generation success. -/
  newKeyContent : String
  /-- Outcome of openssl x509 -noout -text on the candidate: ok of its exit
  status, error on a spawn failure. -/
  verifyStruct : Except String Bool
  /-- Whether the text representation of the candidate contains server_ip. -/
  containsIp : Bool
  /-- Outcome of openssl x509 -enddate on the candidate (status only logged). -/
  verifyExpiry : Except String Bool
  /-- Outcome of the two set_permissions calls in replace_cert. -/
  permResult : Except String Unit
  /-- Outcome of signal_restart. -/
  signal : Except String Unit

/-- CertManager::generate_cert (src/main.rs): remove both temp files
(failures ignored), then try Step CLI and fall back to OpenSSL; on success
the winning backend has written the candidate pair. -/
def generate_cert (env : MainEnv) (fs : FS) : Except String Bool × FS :=
  let fs1 : FS := { fs with tempCert := none, tempKey := none }
  match env.genResult with
  | Except.ok true =>
    (Except.ok true,
      { fs1 with tempCert := some env.newCertContent,
                 tempKey := some env.newKeyContent })
  | Except.ok false => (Except.ok false, fs1)
  | Except.error e => (Except.error e, fs1)

/-- CertManager::verify_cert (src/main.rs): a failed structural check
returns ok false; the server identity being absent from the text output is
only logged as a warning; the expiry display probe carries a question mark
on the spawn but its status is only logged; then ok true. -/
def verify_cert (structProbe : Except String Bool) (containsIp : Bool)
    (expiryProbe : Except String Bool) : Except String Bool :=
  match structProbe with
  | Except.error e => Except.error e
  | Except.ok structOk =>
    if !structOk then
      Except.ok false
    else
      let _ := containsIp
      match expiryProbe with
      | Except.error e => Except.error e
      | Except.ok _ => Except.ok true

/-- CertManager::replace_cert (src/main.rs): when both candidate files
exist, rename the live files aside to .old (failures ignored, so a missing
live file leaves the previous aside copy in place), rename the candidates
into the live paths, then set permissions 644 and 600 with a question mark
on each call; when a candidate is missing, ok false. -/
def replace_cert (permResult : Except String Unit) (fs : FS) :
    Except String Bool × FS :=
  match fs.tempCert, fs.tempKey with
  | some nc, some nk =>
    let fs1 : FS :=
      { liveCert := some nc, liveKey := some nk,
        tempCert := none, tempKey := none,
        oldCert := (match fs.liveCert with | some c => some c | none => fs.oldCert),
        oldKey := (match fs.liveKey with | some k => some k | none => fs.oldKey) }
    match permResult with
    | Except.ok _ => (Except.ok true, fs1)
    | Except.error e => (Except.error e, fs1)
  | _, _ => (Except.ok false, fs)

/-- CertManager::renew_certificate (src/main.rs): backup, generate, verify
(deleting the candidate pair and aborting on a failed verification),
replace, signal restart; notifications are fire-and-forget unit calls and
cannot alter the result. -/
def renew_certificate (env : MainEnv) (fs : FS) : Except String Bool × FS :=
  match env.backup with
  | Except.error e => (Except.error e, fs)
  | Except.ok _ =>
    match generate_cert env fs with
    | (Except.error e, fs1) => (Except.error e, fs1)
    | (Except.ok false, fs1) => (Except.ok false, fs1)
    | (Except.ok true, fs1) =>
      match verify_cert env.verifyStruct env.containsIp env.verifyExpiry with
      | Except.error e => (Except.error e, fs1)
      | Except.ok false =>
        (Except.ok false, { fs1 with tempCert := none, tempKey := none })
      | Except.ok true =>
        match replace_cert env.permResult fs1 with
        | (Except.error e, fs2) => (Except.error e, fs2)
        | (Except.ok false, fs2) => (Except.ok false, fs2)
        | (Except.ok true, fs2) =>
          match env.signal with
          | Except.error e => (Except.error e, fs2)
          | Except.ok _ => (Except.ok true, fs2)

/-- CertManager::check_and_renew (src/main.rs): the expiry check result is
taken with unwrap_or(false), so its error collapses into needs-renewal; a
renewal returning ok false is only logged, while an error propagates. -/
def check_and_renew (env : MainEnv) (fs : FS) : Except String Unit × FS :=
  let certValid :=
    match check_cert_expiry fs.liveCert.isSome env.opensslOk env.daysLeft
        env.threshold with
    | Except.ok b => b
    | Except.error _ => false
  if certValid then (Except.ok (), fs)
  else
    match renew_certificate env fs with
    | (Except.error e, fs1) => (Except.error e, fs1)
    | (Except.ok _, fs1) => (Except.ok (), fs1)

/-- CertManager::run_once (src/main.rs), the body of the once command after
initialization: a single check_and_renew whose error becomes the process
error. -/
def main_run_once (env : MainEnv) (fs : FS) : Except String Unit × FS :=
  check_and_renew env fs

/-- One iteration of the daemon loop body in CertManager::run (src/main.rs):
check_and_renew under a question mark; ok means the loop sleeps and runs the
next cycle, error means run returns and the loop exits. -/
def main_run_cycle (env : MainEnv) (fs : FS) : Except String Unit × FS :=
  check_and_renew env fs

/-- Exit status of the process for a given result of the dispatched
command: the tokio main returns the result, and an error exits non-zero. -/
def exitCode (r : Except String Unit) : Nat :=
  match r with
  | Except.ok _ => 0
  | Except.error _ => 1

/- ===================================================================
   Renewal cycle of the src/lib.rs variant.  Deployment happens inside
   generate_cert there, so the generation oracle covers the whole
   generate-and-deploy step; each notification call site carries a
   question mark and gets its own HTTP outcome.
   =================================================================== -/

structure LibEnv where
  /-- Whether the live certificate file exists. -/
  certFileExists : Bool
  /-- Exit status of openssl x509 -enddate on the live certificate. -/
  opensslOk : Bool
  /-- Parsed days remaining until notAfter; none when the date fails to parse. -/
  daysLeft : Option Int
  /-- config.days_before_renewal. -/
  threshold : Int
  /-- Outcome of backup_cert. -/
  backup : Except String Unit
  /-- Outcome of generate_cert (generation plus deployment). -/
  generate : Except String Bool
  /-- config.slack_webhook_url. -/
  webhook : Option String
  /-- HTTP outcome of the backup-failed notification. -/
  httpBackupFail : HttpResult
  /-- HTTP outcome of the renewed-successfully notification. -/
  httpSuccess : HttpResult
  /-- HTTP outcome of the generation-failed notification. -/
  httpGenFail : HttpResult
  /-- HTTP outcome of the renewal-error notification. -/
  httpRenewErr : HttpResult

/-- One iteration of the loop body in CertManager::run (src/lib.rs): the
expiry check carries a question mark; a backup error is caught but its
notification carries a question mark; the generation outcome is matched and
each arm notifies under a question mark.  Ok means the loop sleeps and runs
the next cycle, error means run returns and the loop exits. -/
def lib_run_cycle (e : LibEnv) : Except String Unit :=
  match check_cert_expiry e.certFileExists e.opensslOk e.daysLeft e.threshold with
  | Except.error err => Except.error err
  | Except.ok valid =>
    if valid then Except.ok ()
    else
      let afterBackup : Except String Unit :=
        match e.backup with
        | Except.error _ => send_slack_notification e.webhook e.httpBackupFail
        | Except.ok _ => Except.ok ()
      match afterBackup with
      | Except.error err => Except.error err
      | Except.ok _ =>
        match e.generate with
        | Except.ok true => send_slack_notification e.webhook e.httpSuccess
        | Except.ok false => send_slack_notification e.webhook e.httpGenFail
        | Except.error _ => send_slack_notification e.webhook e.httpRenewErr

/-- CertManager::run_once (src/lib.rs): the expiry check and the backup
carry question marks; a generation soft failure becomes the error
"Certificate generation failed", a generation error propagates, and the
success notification carries a question mark. -/
def lib_run_once (e : LibEnv) : Except String Unit :=
  match check_cert_expiry e.certFileExists e.opensslOk e.daysLeft e.threshold with
  | Except.error err => Except.error err
  | Except.ok valid =>
    if valid then Except.ok ()
    else
      match e.backup with
      | Except.error err => Except.error err
      | Except.ok _ =>
        match e.generate with
        | Except.ok true => send_slack_notification e.webhook e.httpSuccess
        | Except.ok false => Except.error "Certificate generation failed"
        | Except.error err => Except.error err

/- ===================================================================
   Helper lemmas shared by several results below.
   =================================================================== -/

/-- When every oracle of the renewal pipeline resolves to an ok outcome,
renew_certificate returns ok of some boolean and never an error. -/
theorem renew_ok_of_oracles (env : MainEnv) (fs : FS) (g v r : Bool)
    (hb : env.backup = Except.ok ()) (hg : env.genResult = Except.ok g)
    (hv : env.verifyStruct = Except.ok v) (he : env.verifyExpiry = Except.ok r)
    (hp : env.permResult = Except.ok ()) (hs : env.signal = Except.ok ()) :
    ∃ (b : Bool) (fs1 : FS), renew_certificate env fs = (Except.ok b, fs1) := by
  unfold renew_certificate generate_cert verify_cert replace_cert
  rw [hb, hg, hv, he, hp, hs]
  cases g
  · exact ⟨false, _, rfl⟩
  · cases v
    · exact ⟨false, _, rfl⟩
    · exact ⟨true, _, rfl⟩

/-- Under the same oracle assumptions, one src/main.rs cycle finishes ok. -/
theorem check_and_renew_ok_of_oracles (env : MainEnv) (fs : FS) (g v r : Bool)
    (hb : env.backup = Except.ok ()) (hg : env.genResult = Except.ok g)
    (hv : env.verifyStruct = Except.ok v) (he : env.verifyExpiry = Except.ok r)
    (hp : env.permResult = Except.ok ()) (hs : env.signal = Except.ok ()) :
    (check_and_renew env fs).1 = Except.ok () := by
  obtain ⟨b, fs1, hr⟩ := renew_ok_of_oracles env fs g v r hb hg hv he hp hs
  unfold check_and_renew
  rw [hr]
  cases hc : check_cert_expiry fs.liveCert.isSome env.opensslOk env.daysLeft
      env.threshold with
  | ok bb => cases bb <;> rfl
  | error msg => rfl

/-- When the expiry date parses and every notification receives an HTTP
response (2xx or not), one src/lib.rs cycle finishes ok. -/
theorem lib_cycle_ok_of_oracles (e : LibEnv) (d : Int) (b1 b2 b3 b4 : Bool)
    (hd : e.daysLeft = some d)
    (h1 : e.httpBackupFail = HttpResult.response b1)
    (h2 : e.httpSuccess = HttpResult.response b2)
    (h3 : e.httpGenFail = HttpResult.response b3)
    (h4 : e.httpRenewErr = HttpResult.response b4) :
    lib_run_cycle e = Except.ok () := by
  obtain ⟨cfe, oss, dl, th, bk, gen, wh, n1, n2, n3, n4⟩ := e
  dsimp only at hd h1 h2 h3 h4
  subst hd h1 h2 h3 h4
  cases cfe <;> cases oss <;>
    rcases bk with msg | u <;>
    rcases gen with msg2 | b <;> (try cases b) <;>
    rcases wh with _ | url <;>
    simp [lib_run_cycle, check_cert_expiry, send_slack_notification] <;>
    by_cases hdt : d ≤ th <;> simp [hdt]

/-- The first segment of a comma split is the prefix before the first comma. -/
theorem splitOnCharList_headQ (sep : Char) (l : List Char) :
    (splitOnCharList sep l).head? = some (l.takeWhile (fun c => c ≠ sep)) := by
  induction l with
  | nil => simp [splitOnCharList]
  | cons c rest ih =>
    by_cases h : c = sep
    · simp [splitOnCharList, h]
    · cases hr : splitOnCharList sep rest with
      | nil => rw [hr] at ih; simp at ih
      | cons seg segs =>
        rw [hr] at ih
        simp only [List.head?, Option.some.injEq] at ih
        subst ih
        simp [splitOnCharList, h, hr, List.takeWhile_cons]

/-- The headD step in configServerIp always picks the prefix of
CERT_DOMAINS before the first comma and never the localhost fallback. -/
theorem splitOnChar_headD (d : String) :
    (splitOnChar ',' d).headD "localhost" = firstDomainSegment d := by
  have hh := splitOnCharList_headQ ',' d.data
  unfold splitOnChar firstDomainSegment
  cases hs : splitOnCharList ',' d.data with
  | nil => rw [hs] at hh; simp at hh
  | cons seg segs =>
    rw [hs] at hh
    simp only [List.head?, Option.some.injEq] at hh
    subst hh
    rfl

/- ===================================================================
   Claim theorems.
   =================================================================== -/

/-- Claim C6: the expiry check reports needs-renewal (ok false) exactly when
the remaining days are at most the renewal threshold, boundary inclusive,
reports healthy (ok true) exactly when they exceed it, and a missing
certificate file is reported as needs-renewal rather than as an error. -/
theorem expiry_threshold_inclusive :
    ∀ (oss : Bool) (p : Option Int) (d t : Int),
      check_cert_expiry false oss p t = Except.ok false
      ∧ (check_cert_expiry true true (some d) t = Except.ok false ↔ d ≤ t)
      ∧ (check_cert_expiry true true (some d) t = Except.ok true ↔ t < d) := by
  intro oss p d t
  have h1 : check_cert_expiry true true (some d) t
      = if d ≤ t then Except.ok false else Except.ok true := rfl
  refine ⟨rfl, ?_, ?_⟩ <;>
    (rw [h1]; by_cases h : d ≤ t <;> simp [h, Except.ok.injEq] <;> omega)

/-- Claim C10: with SERVER_IP unset and CERT_DOMAINS set, configuration
loading succeeds and the server identity is exactly the substring of
CERT_DOMAINS before its first comma, taken verbatim; in particular the
empty string yields the empty identity, and the localhost fallback is
unreachable because a comma split always yields at least one segment. -/
theorem cert_domains_first_segment :
    (∀ d : String,
        configServerIp none (some d) = Except.ok (firstDomainSegment d)
        ∧ splitOnChar ',' d ≠ [])
    ∧ configServerIp none (some "") = Except.ok "" := by
  constructor
  · intro d
    have hh := splitOnCharList_headQ ',' d.data
    constructor
    · show Except.ok ((splitOnChar ',' d).headD "localhost") = _
      rw [splitOnChar_headD]
    · unfold splitOnChar
      cases hs : splitOnCharList ',' d.data with
      | nil => rw [hs] at hh; simp at hh
      | cons seg segs => simp
  · rfl

/-- Claim C2 counterexample: the src/main.rs OpenSSL backend splices the
configured identity into the SAN string with an unconditional IP prefix, so
the non-IP identity api.example.com is emitted as an IP entry there while
the src/lib.rs backend classifies it as a DNS entry: the classification is
not the same for every backend. -/
theorem main_san_misclassifies_domain :
    is_ip_address "api.example.com" = false
    ∧ mainSan "api.example.com" = "IP:api.example.com,DNS:localhost,IP:127.0.0.1"
    ∧ libSan "api.example.com" = "DNS:localhost,IP:127.0.0.1,DNS:api.example.com" := by
  refine ⟨by decide, rfl, by decide⟩

/-- Claim C2 amended: in the src/lib.rs OpenSSL backend the SAN set always
contains DNS:localhost and IP:127.0.0.1 and classifies the configured
identity as an IP entry exactly when is_ip_address accepts it, else as a
DNS entry (192.168.1.100 is accepted, api.example.com is not); the
src/main.rs OpenSSL backend instead always labels the identity IP, and the
Step CLI backend passes it with no classification prefix. -/
theorem lib_san_classification :
    ∀ s : String,
      "DNS:localhost" ∈ libSanEntries s
      ∧ "IP:127.0.0.1" ∈ libSanEntries s
      ∧ (is_ip_address s = true →
          libSanEntries s = ["DNS:localhost", "IP:127.0.0.1", "IP:" ++ s])
      ∧ (is_ip_address s = false →
          libSanEntries s = ["DNS:localhost", "IP:127.0.0.1", "DNS:" ++ s])
      ∧ is_ip_address "192.168.1.100" = true
      ∧ is_ip_address "api.example.com" = false
      ∧ stepSanArgs s = [s, "localhost", "127.0.0.1"] := by
  intro s
  refine ⟨by simp [libSanEntries], by simp [libSanEntries], ?_, ?_,
    by decide, by decide, rfl⟩
  · intro h; simp [libSanEntries, h]
  · intro h; simp [libSanEntries, h]

/-- Witness for lib_san_classification at the identity 192.168.1.100. -/
theorem lib_san_classification_witness :
    libSanEntries "192.168.1.100"
      = ["DNS:localhost", "IP:127.0.0.1", "IP:" ++ "192.168.1.100"] :=
  (lib_san_classification "192.168.1.100").2.2.1 (by decide)

/-- Claim C5 counterexample: in src/lib.rs a network error while delivering
a notification is returned as an error from send_slack_notification, and
the daemon cycle propagates it through the question mark, so a delivery
failure is escalated into a failure of the renewal cycle. -/
theorem lib_notification_network_error_propagates :
    send_slack_notification (some "hook") (HttpResult.netErr "connection refused")
      = Except.error "connection refused"
    ∧ lib_run_cycle ⟨false, true, none, 5, Except.ok (), Except.ok true,
        some "hook", HttpResult.response true,
        HttpResult.netErr "connection refused",
        HttpResult.response true, HttpResult.response true⟩
      = Except.error "connection refused" := ⟨rfl, rfl⟩

/-- Claim C5 amended: with no endpoint configured, sending is silently
skipped in both variants; a non-2xx response is only logged in both
variants; a network error is caught and only logged in the src/main.rs
variant but is propagated as an error by the src/lib.rs variant. -/
theorem notification_best_effort :
    (∀ r : HttpResult, send_slack_notification none r = Except.ok ())
    ∧ (∀ (w : Option String) (r : HttpResult),
        mainSendNotification w r = Except.ok ())
    ∧ (∀ (u : String) (b : Bool),
        send_slack_notification (some u) (HttpResult.response b) = Except.ok ())
    ∧ (∀ (u m : String),
        send_slack_notification (some u) (HttpResult.netErr m) = Except.error m) := by
  refine ⟨fun r => rfl, fun w r => ?_, fun u b => rfl, fun u m => rfl⟩
  cases w with
  | none => rfl
  | some u => cases r <;> rfl

/-- Claim C1 counterexample: a failure inside a renewal cycle can exit the
daemon loop.  In the src/lib.rs loop an expiry parse error propagates
through the question mark on check_cert_expiry and run returns; in the
src/main.rs loop a backup error propagates through the question mark on
renew_certificate and run returns. -/
theorem daemon_cycle_failure_exits_loop :
    lib_run_cycle ⟨true, true, none, 5, Except.ok (), Except.ok true, none,
        HttpResult.response true, HttpResult.response true,
        HttpResult.response true, HttpResult.response true⟩
      = Except.error "Failed to parse expiry date"
    ∧ (main_run_cycle
        ⟨true, some 3, 5, Except.error "backup copy failed", Except.ok true,
          "NEWCRT", "NEWKEY", Except.ok true, true, Except.ok true,
          Except.ok (), Except.ok ()⟩
        ⟨none, none, none, none, none, none⟩).1
      = Except.error "backup copy failed" := ⟨rfl, rfl⟩

/-- Claim C1 amended: the daemon loop survives generation, verification and
replacement failures that surface as ok-false outcomes, and in the
src/lib.rs variant also backup failures; but it only proceeds to the next
cycle when the expiry result parses and, in the src/lib.rs variant, every
notification gets an HTTP response rather than a network error, and, in the
src/main.rs variant, the backup, spawn, permission and restart-signal
oracles return ok: an error from any of those propagates and exits the
loop. -/
theorem daemon_cycle_survives_soft_failures :
    (∀ (e : LibEnv) (d : Int) (b1 b2 b3 b4 : Bool),
        e.daysLeft = some d →
        e.httpBackupFail = HttpResult.response b1 →
        e.httpSuccess = HttpResult.response b2 →
        e.httpGenFail = HttpResult.response b3 →
        e.httpRenewErr = HttpResult.response b4 →
        lib_run_cycle e = Except.ok ())
    ∧ (∀ (env : MainEnv) (fs : FS) (g v r : Bool),
        env.backup = Except.ok () →
        env.genResult = Except.ok g →
        env.verifyStruct = Except.ok v →
        env.verifyExpiry = Except.ok r →
        env.permResult = Except.ok () →
        env.signal = Except.ok () →
        (main_run_cycle env fs).1 = Except.ok ()) := by
  constructor
  · intro e d b1 b2 b3 b4 hd h1 h2 h3 h4
    exact lib_cycle_ok_of_oracles e d b1 b2 b3 b4 hd h1 h2 h3 h4
  · intro env fs g v r hb hg hv he hp hs
    exact check_and_renew_ok_of_oracles env fs g v r hb hg hv he hp hs

/-- Witness for daemon_cycle_survives_soft_failures: a cycle whose backup
fails and whose generation reports failure still ends ok in the src/lib.rs
loop, and a cycle whose generation reports failure still ends ok in the
src/main.rs loop. -/
theorem daemon_cycle_survives_soft_failures_witness :
    lib_run_cycle ⟨true, true, some 3, 5, Except.error "backup copy failed",
        Except.ok false, some "hook", HttpResult.response true,
        HttpResult.response true, HttpResult.response false,
        HttpResult.response true⟩ = Except.ok ()
    ∧ (main_run_cycle ⟨true, some 3, 5, Except.ok (), Except.ok false, "NC",
        "NK", Except.ok true, true, Except.ok true, Except.ok (),
        Except.ok ()⟩
        ⟨some "OC", some "OK2", none, none, none, none⟩).1 = Except.ok () :=
  ⟨daemon_cycle_survives_soft_failures.1 _ 3 true true false true
      rfl rfl rfl rfl rfl,
    daemon_cycle_survives_soft_failures.2 _ _ false true true
      rfl rfl rfl rfl rfl rfl⟩

/-- Claim C3 counterexample: a once run of the src/main.rs binary in which
certificate generation fails (the backend chain reports failure) still
returns ok from run_once, so the process exits with status zero despite the
cycle failure. -/
theorem once_generation_failure_exits_zero :
    (renew_certificate ⟨true, some 3, 5, Except.ok (), Except.ok false, "NC",
        "NK", Except.ok true, true, Except.ok true, Except.ok (),
        Except.ok ()⟩
        ⟨none, none, none, none, none, none⟩).1 = Except.ok false
    ∧ exitCode (main_run_once ⟨true, some 3, 5, Except.ok (), Except.ok false,
        "NC", "NK", Except.ok true, true, Except.ok true, Except.ok (),
        Except.ok ()⟩
        ⟨none, none, none, none, none, none⟩).1 = 0 := ⟨rfl, rfl⟩

/-- Claim C3 amended: in the once command of the src/main.rs binary, a
renewal step failing with an ok-false outcome (generation, verification or
replacement failure) is only logged and the process exits zero; only error
outcomes, such as a backup failure, produce a non-zero exit, and a healthy
certificate exits zero.  The src/lib.rs run_once does turn a generation
failure into a non-zero exit. -/
theorem once_exit_codes :
    (∀ (env : MainEnv) (fs : FS),
        env.backup = Except.ok () → env.genResult = Except.ok false →
        exitCode (main_run_once env fs).1 = 0)
    ∧ (∀ (env : MainEnv) (fs : FS) (msg : String),
        fs.liveCert = none → env.backup = Except.error msg →
        (main_run_once env fs).1 = Except.error msg)
    ∧ (∀ (env : MainEnv) (fs : FS) (d : Int),
        fs.liveCert.isSome = true → env.opensslOk = true →
        env.daysLeft = some d → env.threshold < d →
        exitCode (main_run_once env fs).1 = 0)
    ∧ (∀ (e : LibEnv) (d : Int),
        e.certFileExists = true → e.opensslOk = true → e.daysLeft = some d →
        d ≤ e.threshold → e.backup = Except.ok () →
        e.generate = Except.ok false →
        lib_run_once e = Except.error "Certificate generation failed") := by
  refine ⟨?_, ?_, ?_, ?_⟩
  · intro env fs hb hg
    unfold main_run_once check_and_renew renew_certificate generate_cert
    rw [hb, hg]
    cases hc : check_cert_expiry fs.liveCert.isSome env.opensslOk env.daysLeft
        env.threshold with
    | ok bb => cases bb <;> rfl
    | error msg => rfl
  · intro env fs msg hcert hb
    unfold main_run_once check_and_renew renew_certificate
    rw [hcert, hb]
    rfl
  · intro env fs d hcert hoss hd ht
    unfold main_run_once check_and_renew check_cert_expiry
    rw [hcert, hoss, hd]
    have : ¬(d ≤ env.threshold) := by omega
    simp [this, exitCode]
  · intro e d hcf hoss hd hdt hb hg
    unfold lib_run_once check_cert_expiry
    rw [hcf, hoss, hd, hb, hg]
    simp [hdt]

/-- Witness for once_exit_codes at concrete cycles: generation failure
exits zero, a backup error exits non-zero, a healthy certificate exits
zero, and the src/lib.rs run_once turns generation failure into an error. -/
theorem once_exit_codes_witness :
    exitCode (main_run_once ⟨true, some 3, 5, Except.ok (), Except.ok false,
        "NC", "NK", Except.ok true, true, Except.ok true, Except.ok (),
        Except.ok ()⟩
        ⟨none, none, none, none, none, none⟩).1 = 0
    ∧ (main_run_once ⟨true, some 3, 5, Except.error "disk full",
        Except.ok true, "NC", "NK", Except.ok true, true, Except.ok true,
        Except.ok (), Except.ok ()⟩
        ⟨none, none, none, none, none, none⟩).1 = Except.error "disk full"
    ∧ exitCode (main_run_once ⟨true, some 9, 5, Except.ok (), Except.ok true,
        "NC", "NK", Except.ok true, true, Except.ok true, Except.ok (),
        Except.ok ()⟩
        ⟨some "LC", some "LK", none, none, none, none⟩).1 = 0
    ∧ lib_run_once ⟨true, true, some 3, 5, Except.ok (), Except.ok false,
        none, HttpResult.response true, HttpResult.response true,
        HttpResult.response true, HttpResult.response true⟩
      = Except.error "Certificate generation failed" :=
  ⟨once_exit_codes.1 _ _ rfl rfl,
    once_exit_codes.2.1 _ _ "disk full" rfl rfl,
    once_exit_codes.2.2.1 _ _ 9 rfl rfl rfl (by decide),
    once_exit_codes.2.2.2 _ 3 rfl rfl rfl (by decide) rfl rfl⟩

/-- Claim C4 counterexample: verify_cert returns ok true when the
structural check passes even though the configured identity is absent from
the certificate text (the containsIp flag is false and only a warning is
logged), and the renewal pipeline then deploys the candidate anyway. -/
theorem verify_passes_without_identity :
    verify_cert (Except.ok true) false (Except.ok true) = Except.ok true
    ∧ renew_certificate ⟨true, some 3, 5, Except.ok (), Except.ok true,
        "NEWCRT", "NEWKEY", Except.ok true, false, Except.ok true,
        Except.ok (), Except.ok ()⟩
        ⟨some "OLDCRT", some "OLDKEY", none, none, none, none⟩
      = (Except.ok true,
          ⟨some "NEWCRT", some "NEWKEY", none, none,
            some "OLDCRT", some "OLDKEY"⟩) := ⟨rfl, rfl⟩

/-- Claim C4 amended: verification of the candidate fails exactly when its
structural validity check fails (a missing identity in the text only
produces a warning), and on that verification failure deployment is
aborted: the renewal returns ok false, the two candidate temp files are
deleted, and the live and aside files are left unchanged. -/
theorem verify_failure_aborts_cleanly :
    (∀ (c : Bool) (p : Except String Bool),
        verify_cert (Except.ok false) c p = Except.ok false)
    ∧ (∀ (c b : Bool),
        verify_cert (Except.ok true) c (Except.ok b) = Except.ok true)
    ∧ (∀ (env : MainEnv) (fs : FS),
        env.backup = Except.ok () → env.genResult = Except.ok true →
        env.verifyStruct = Except.ok false →
        (renew_certificate env fs).1 = Except.ok false
        ∧ (renew_certificate env fs).2.tempCert = none
        ∧ (renew_certificate env fs).2.tempKey = none
        ∧ (renew_certificate env fs).2.liveCert = fs.liveCert
        ∧ (renew_certificate env fs).2.liveKey = fs.liveKey
        ∧ (renew_certificate env fs).2.oldCert = fs.oldCert
        ∧ (renew_certificate env fs).2.oldKey = fs.oldKey) := by
  refine ⟨fun c p => rfl, fun c b => rfl, ?_⟩
  intro env fs hb hg hv
  unfold renew_certificate generate_cert verify_cert
  rw [hb, hg, hv]
  exact ⟨rfl, rfl, rfl, rfl, rfl, rfl, rfl⟩

/-- Witness for verify_failure_aborts_cleanly: a structurally invalid
candidate is rejected, the temp pair is removed and the live pair is kept. -/
theorem verify_failure_aborts_cleanly_witness :
    (renew_certificate ⟨true, some 3, 5, Except.ok (), Except.ok true,
        "BADCRT", "BADKEY", Except.ok false, true, Except.ok true,
        Except.ok (), Except.ok ()⟩
        ⟨some "OLDCRT", some "OLDKEY", none, none, none, none⟩).1
      = Except.ok false
    ∧ (renew_certificate ⟨true, some 3, 5, Except.ok (), Except.ok true,
        "BADCRT", "BADKEY", Except.ok false, true, Except.ok true,
        Except.ok (), Except.ok ()⟩
        ⟨some "OLDCRT", some "OLDKEY", none, none, none, none⟩).2.liveCert
      = some "OLDCRT" :=
  ⟨(verify_failure_aborts_cleanly.2.2 _ _ rfl rfl rfl).1,
    (verify_failure_aborts_cleanly.2.2 _ _ rfl rfl rfl).2.2.2.1⟩

/-- Claim C7 counterexample: when the live certificate exists but the
external expiry inspection fails (non-success openssl status), the check
returns ok false, the same outcome as needs-renewal, not a hard error,
even when the certificate actually has 100 days remaining. -/
theorem expiry_unreadable_not_hard_error :
    check_cert_expiry true false none 5 = Except.ok false
    ∧ check_cert_expiry true false (some 100) 5 = Except.ok false := ⟨rfl, rfl⟩

/-- Claim C7 amended: only an unparsable notAfter output is a hard error,
distinct from the needs-renewal and valid outcomes; a failing expiry
inspection is collapsed into needs-renewal.  The parse error does not
terminate the src/main.rs daemon, whose check_and_renew takes the result
with unwrap_or(false) and proceeds into renewal, but it does terminate the
src/lib.rs daemon loop, where it propagates through the question mark. -/
theorem expiry_parse_error_behavior :
    (∀ t : Int, check_cert_expiry true true none t
        = Except.error "Failed to parse expiry date")
    ∧ (∀ (t : Int) (p : Option Int), check_cert_expiry true false p t
        = Except.ok false)
    ∧ (∀ (env : MainEnv) (fs : FS) (g v r : Bool),
        env.backup = Except.ok () →
        env.genResult = Except.ok g →
        env.verifyStruct = Except.ok v →
        env.verifyExpiry = Except.ok r →
        env.permResult = Except.ok () →
        env.signal = Except.ok () →
        (main_run_cycle env fs).1 = Except.ok ())
    ∧ (∀ e : LibEnv,
        e.certFileExists = true → e.opensslOk = true → e.daysLeft = none →
        lib_run_cycle e = Except.error "Failed to parse expiry date") := by
  refine ⟨fun t => rfl, fun t p => rfl, ?_, ?_⟩
  · intro env fs g v r hb hg hv he hp hs
    exact check_and_renew_ok_of_oracles env fs g v r hb hg hv he hp hs
  · intro e hcf hoss hd
    unfold lib_run_cycle check_cert_expiry
    rw [hcf, hoss, hd]
    rfl

/-- Witness for expiry_parse_error_behavior: a parse error surfaces as the
hard error, the src/main.rs cycle still finishes ok with it, and the
src/lib.rs cycle exits with it. -/
theorem expiry_parse_error_behavior_witness :
    check_cert_expiry true true none 5 = Except.error "Failed to parse expiry date"
    ∧ (main_run_cycle ⟨true, none, 5, Except.ok (), Except.ok true, "NC", "NK",
        Except.ok true, true, Except.ok true, Except.ok (), Except.ok ()⟩
        ⟨some "LC", some "LK", none, none, none, none⟩).1 = Except.ok ()
    ∧ lib_run_cycle ⟨true, true, none, 5, Except.ok (), Except.ok false, none,
        HttpResult.response true, HttpResult.response true,
        HttpResult.response true, HttpResult.response true⟩
      = Except.error "Failed to parse expiry date" :=
  ⟨expiry_parse_error_behavior.1 5,
    expiry_parse_error_behavior.2.2.1 _ _ true true true
      rfl rfl rfl rfl rfl rfl,
    expiry_parse_error_behavior.2.2.2 _ rfl rfl rfl⟩

/-- Claim C8 counterexample: in replace_cert a permission-setting failure
after the renames is returned as an error, so the deployment step does
report failure rather than only logging it. -/
theorem perm_failure_reports_deploy_failure :
    (replace_cert (Except.error "chmod failed")
        ⟨some "OLDCRT", some "OLDKEY", some "NEWCRT", some "NEWKEY",
          none, none⟩).1
      = Except.error "chmod failed" := rfl

/-- Claim C8 amended: a permission-setting failure after the renames does
not roll them back: the candidate contents remain at the live paths and the
temp slots stay empty; but the failure propagates out of replace_cert as an
error instead of being only logged. -/
theorem perm_failure_preserves_rename :
    ∀ (fs : FS) (nc nk msg : String),
      fs.tempCert = some nc → fs.tempKey = some nk →
      (replace_cert (Except.error msg) fs).1 = Except.error msg
      ∧ (replace_cert (Except.error msg) fs).2.liveCert = some nc
      ∧ (replace_cert (Except.error msg) fs).2.liveKey = some nk
      ∧ (replace_cert (Except.error msg) fs).2.tempCert = none
      ∧ (replace_cert (Except.error msg) fs).2.tempKey = none := by
  intro fs nc nk msg hc hk
  unfold replace_cert
  rw [hc, hk]
  exact ⟨rfl, rfl, rfl, rfl, rfl⟩

/-- Witness for perm_failure_preserves_rename at a concrete directory
state. -/
theorem perm_failure_preserves_rename_witness :
    (replace_cert (Except.error "chmod denied")
        ⟨some "OLDCRT", some "OLDKEY", some "NEWCRT", some "NEWKEY",
          none, none⟩).2.liveCert = some "NEWCRT" :=
  (perm_failure_preserves_rename
      ⟨some "OLDCRT", some "OLDKEY", some "NEWCRT", some "NEWKEY", none, none⟩
      "NEWCRT" "NEWKEY" "chmod denied" rfl rfl).2.1

/-- Claim C9 counterexample: the src/lib.rs reload trigger runs every
configured command through sh -c even when it contains no chaining
metacharacters, and with no command configured it writes no sentinel file
and simply skips. -/
theorem lib_reload_always_shell :
    hasSubstr "systemctl reload nginx" "&&" = false
    ∧ strContainsChar "systemctl reload nginx" ';' = false
    ∧ lib_execute_reload_command (some "systemctl reload nginx")
      = Except.ok (ReloadAction.shell "systemctl reload nginx")
    ∧ lib_execute_reload_command none = Except.ok ReloadAction.skipped := by
  refine ⟨by decide, by decide, rfl, rfl⟩

/-- Claim C9 amended: the src/main.rs reload trigger executes a configured
command through a shell exactly when it contains a double ampersand or a
semicolon, otherwise invokes it directly with whitespace-split arguments
(an all-whitespace command is an error), and with no command configured it
writes the sentinel file; the src/lib.rs variant instead always uses the
shell and never writes a sentinel. -/
theorem reload_dispatch :
    (∀ (c dir : String),
        (hasSubstr c "&&" || strContainsChar c ';') = true →
        main_signal_restart (some c) dir = Except.ok (ReloadAction.shell c))
    ∧ (∀ (c dir prog : String) (args : List String),
        (hasSubstr c "&&" || strContainsChar c ';') = false →
        splitWhitespace c = prog :: args →
        main_signal_restart (some c) dir
          = Except.ok (ReloadAction.direct prog args))
    ∧ (∀ (c dir : String),
        (hasSubstr c "&&" || strContainsChar c ';') = false →
        splitWhitespace c = [] →
        main_signal_restart (some c) dir = Except.error "Empty reload command")
    ∧ (∀ dir : String,
        main_signal_restart none dir
          = Except.ok (ReloadAction.sentinel (dir ++ "/.restart_needed")))
    ∧ (∀ c : String,
        lib_execute_reload_command (some c) = Except.ok (ReloadAction.shell c))
    ∧ lib_execute_reload_command none = Except.ok ReloadAction.skipped := by
  refine ⟨?_, ?_, ?_, fun dir => rfl, fun c => rfl, rfl⟩
  · intro c dir h
    simp [main_signal_restart, h]
  · intro c dir prog args h hsplit
    simp [main_signal_restart, h, hsplit]
  · intro c dir h hsplit
    simp [main_signal_restart, h, hsplit]

/-- Witness for reload_dispatch: a chained command goes through the shell,
a simple command is invoked directly with split arguments, and an
all-whitespace command is rejected. -/
theorem reload_dispatch_witness :
    main_signal_restart (some "cp a b && systemctl reload nginx") "/certs"
      = Except.ok (ReloadAction.shell "cp a b && systemctl reload nginx")
    ∧ main_signal_restart (some "systemctl reload nginx") "/certs"
      = Except.ok (ReloadAction.direct "systemctl" ["reload", "nginx"])
    ∧ main_signal_restart (some "  ") "/certs"
      = Except.error "Empty reload command" :=
  ⟨reload_dispatch.1 "cp a b && systemctl reload nginx" "/certs" (by decide),
    reload_dispatch.2.1 "systemctl reload nginx" "/certs" "systemctl"
      ["reload", "nginx"] (by decide) (by decide),
    reload_dispatch.2.2.1 "  " "/certs" (by decide) (by decide)⟩

end DimensionBridge
